import Mathlib

/-!
Shallow embedding of the HavenHomes authentication and authorization core:
the OIDC session middleware (replitAuth / googleAuth), the role middleware,
the self-service profile update route, and the user / favorite storage layer,
together with proofs settling the specification claims.

Conventions of the embedding:
- JavaScript objects become structures; absent (undefined) optional values
  become Option.none.
- JavaScript truthiness tests on numbers and strings are modelled exactly:
  undefined and 0 are falsy for numbers, undefined and the empty string are
  falsy for strings.
- The database is a list of rows; drizzle upserts with onConflictDoUpdate /
  onConflictDoNothing become explicit conflict checks on the conflict target.
- Continuation-passing middleware (res.status(...).json(...) versus next())
  becomes a result value: either a terminating HTTP response or a pass.
-/

namespace HavenHomes

/-- Identity claims carried by a provider token response (only the fields this
codebase reads: replitAuth reads sub, email, first_name, last_name,
profile_image_url and exp). -/
structure Claims where
  sub : String
  email : Option String := none
  first_name : Option String := none
  last_name : Option String := none
  profile_image_url : Option String := none
  exp : Option Nat := none
  deriving Repr, DecidableEq

/-- The token endpoint response, as consumed by updateUserSession:
tokens.claims(), tokens.access_token, tokens.refresh_token. -/
structure TokenResponse where
  claims : Option Claims := none
  access_token : Option String := none
  refresh_token : Option String := none
  deriving Repr, DecidableEq

/-- The session user tuple stored on req.user by the auth middleware. -/
structure AuthUser where
  claims : Option Claims := none
  access_token : Option String := none
  refresh_token : Option String := none
  expires_at : Option Nat := none
  deriving Repr, DecidableEq

/-- JavaScript truthiness of an optional number: undefined and 0 are falsy. -/
def truthyNum : Option Nat → Bool
  | none => false
  | some n => n != 0

/-- JavaScript truthiness of an optional string: undefined and the empty
string are falsy. -/
def truthyStr : Option String → Bool
  | none => false
  | some s => s != ""

/-- Source: updateUserSession (replitAuth.ts lines 59-67, googleAuth.ts
lines 52-57). Overwrites claims, access_token, refresh_token in place and
derives expires_at from the fresh claims' exp. -/
def updateUserSession (user : AuthUser) (tokens : TokenResponse) : AuthUser :=
  { user with
    claims := tokens.claims
    access_token := tokens.access_token
    refresh_token := tokens.refresh_token
    expires_at := tokens.claims.bind (fun c => c.exp) }

/-- Outcome of the provider's refresh-token grant for this request: either a
token response (grant accepted) or a thrown error (grant rejected). -/
inductive RefreshOutcome where
  | accept (tokens : TokenResponse)
  | reject
  deriving Repr, DecidableEq

/-- What the middleware did with the request: terminated it with an HTTP
status and JSON message body, or passed it to the next stage. -/
inductive GateResponse where
  | terminate (status : Nat) (message : String)
  | next
  deriving Repr, DecidableEq

/-- Full observable outcome of one run of the authentication gate: the
response action, the final req.user tuple, and how many refresh-token calls
were made to the provider. -/
structure GateOutcome where
  response : GateResponse
  user : AuthUser
  refreshCalls : Nat
  deriving Repr, DecidableEq

/-- Source: isAuthenticated (replitAuth.ts lines 192-219; googleAuth.ts lines
143-175 is branch-for-branch identical). The isAuth argument models
req.isAuthenticated(); refresh models the provider's reaction to a
refreshTokenGrant call, consulted only if the gate actually performs one. -/
def isAuthenticated (isAuth : Bool) (user : AuthUser) (now : Nat)
    (refresh : RefreshOutcome) : GateOutcome :=
  if !isAuth || !truthyNum user.expires_at then
    { response := GateResponse.terminate 401 "Unauthorized", user := user, refreshCalls := 0 }
  else if now ≤ user.expires_at.getD 0 then
    { response := GateResponse.next, user := user, refreshCalls := 0 }
  else if !truthyStr user.refresh_token then
    { response := GateResponse.terminate 401 "Unauthorized", user := user, refreshCalls := 0 }
  else
    match refresh with
    | RefreshOutcome.accept tokens =>
      { response := GateResponse.next, user := updateUserSession user tokens, refreshCalls := 1 }
    | RefreshOutcome.reject =>
      { response := GateResponse.terminate 401 "Unauthorized", user := user, refreshCalls := 1 }

/-- An HTTP session: the opaque session identifier plus the stored user
tuple. -/
structure Session where
  id : String
  user : AuthUser
  deriving Repr, DecidableEq

/-- The authentication gate at session level: it reads and rewrites req.user
in place and never touches the session identifier (isAuthenticated contains
no call to req.session.regenerate). -/
def isAuthenticatedSession (isAuth : Bool) (s : Session) (now : Nat)
    (refresh : RefreshOutcome) : GateResponse × Session × Nat :=
  let o := isAuthenticated isAuth s.user now refresh
  (o.response, { s with user := o.user }, o.refreshCalls)

/-- Whether the session expiry timestamp lies strictly in the past. -/
def expiresInPast (user : AuthUser) (now : Nat) : Bool :=
  match user.expires_at with
  | none => false
  | some e => e < now

/-- Claim C1 as stated, following the spec wording: 401 exactly when (no
session user) or (expires_at missing) or (expired and no refresh token) or
(refresh attempted and failed); any other request passes through, and in
particular a not-yet-expired session passes through unmodified. A present
refresh token is taken to be a non-empty one, matching the spec's own
invariant that only a non-empty refresh token makes a session refreshable. -/
def gateSpecC1 (isAuth : Bool) (user : AuthUser) (now : Nat)
    (refresh : RefreshOutcome) : Prop :=
  let o := isAuthenticated isAuth user now refresh
  ((o.response = GateResponse.terminate 401 "Unauthorized") ↔
      (isAuth = false ∨ user.expires_at = none
        ∨ (expiresInPast user now = true ∧ truthyStr user.refresh_token = false)
        ∨ (1 ≤ o.refreshCalls ∧ refresh = RefreshOutcome.reject)))
  ∧ (o.response ≠ GateResponse.terminate 401 "Unauthorized" → o.response = GateResponse.next)
  ∧ (isAuth = true → user.expires_at ≠ none → expiresInPast user now = false →
      o = { response := GateResponse.next, user := user, refreshCalls := 0 })

/-- Claim C1 amended for JavaScript truthiness: the missing-expiry condition
also fires when expires_at is present but equal to 0, because the source
tests the falsy expression !user.expires_at. -/
def gateAmendedC1 (isAuth : Bool) (user : AuthUser) (now : Nat)
    (refresh : RefreshOutcome) : Prop :=
  let o := isAuthenticated isAuth user now refresh
  ((o.response = GateResponse.terminate 401 "Unauthorized") ↔
      (isAuth = false ∨ truthyNum user.expires_at = false
        ∨ (expiresInPast user now = true ∧ truthyStr user.refresh_token = false)
        ∨ (1 ≤ o.refreshCalls ∧ refresh = RefreshOutcome.reject)))
  ∧ (o.response ≠ GateResponse.terminate 401 "Unauthorized" → o.response = GateResponse.next)
  ∧ (isAuth = true → truthyNum user.expires_at = true → expiresInPast user now = false →
      o = { response := GateResponse.next, user := user, refreshCalls := 0 })

/-- Concrete session user for the C1 counterexample: expiry present but equal
to 0 (epoch), refresh token present and non-empty. -/
def cexUserC1 : AuthUser :=
  { expires_at := some 0, refresh_token := some ("rt") }

/-- A row of the users table (shared/schema.ts, Replit Auth compatible
variant): profile fields plus the authorization-relevant role, which is
notNull with default buyer. Timestamps are epoch seconds. -/
structure User where
  id : String
  email : Option String := none
  firstName : Option String := none
  lastName : Option String := none
  profileImageUrl : Option String := none
  role : String := "buyer"
  phone : Option String := none
  bio : Option String := none
  createdAt : Nat := 0
  updatedAt : Nat := 0
  deriving Repr, DecidableEq

/-- An upsert payload (UpsertUser): for each mutable column, none means the
key is absent from the payload (drizzle skips it), some v means the column is
written with v; for nullable columns v is itself an Option, where none writes
SQL NULL. -/
structure UpsertUser where
  id : String
  email : Option (Option String) := none
  firstName : Option (Option String) := none
  lastName : Option (Option String) := none
  profileImageUrl : Option (Option String) := none
  role : Option String := none
  phone : Option (Option String) := none
  bio : Option (Option String) := none
  deriving Repr, DecidableEq

/-- Source: DatabaseStorage.getUser — first row of
select().from(users).where(eq(users.id, id)). -/
def getUser (db : List User) (id : String) : Option User :=
  db.find? (fun u => u.id == id)

/-- The conflict-update set of DatabaseStorage.upsertUser:
set with all of userData plus a fresh updatedAt, applied to the existing row —
every column present in the payload is overwritten, every other column keeps
its stored value, and updatedAt is refreshed. -/
def applyUpsert (u : User) (p : UpsertUser) (now : Nat) : User :=
  { u with
    email := p.email.getD u.email
    firstName := p.firstName.getD u.firstName
    lastName := p.lastName.getD u.lastName
    profileImageUrl := p.profileImageUrl.getD u.profileImageUrl
    role := p.role.getD u.role
    phone := p.phone.getD u.phone
    bio := p.bio.getD u.bio
    updatedAt := now }

/-- The insert half of DatabaseStorage.upsertUser: absent columns take their
schema defaults (NULL for the nullable profile columns, buyer for role, the
current time for the timestamps). -/
def insertUser (p : UpsertUser) (now : Nat) : User :=
  { id := p.id
    email := p.email.getD none
    firstName := p.firstName.getD none
    lastName := p.lastName.getD none
    profileImageUrl := p.profileImageUrl.getD none
    role := p.role.getD "buyer"
    phone := p.phone.getD none
    bio := p.bio.getD none
    createdAt := now
    updatedAt := now }

/-- Source: DatabaseStorage.upsertUser (storage.ts lines 73-86) —
insert(users).values(userData).onConflictDoUpdate(target: users.id, set).
Returns the affected row and the new table contents. -/
def upsertUser (db : List User) (p : UpsertUser) (now : Nat) : User × List User :=
  match getUser db p.id with
  | some u =>
    (applyUpsert u p now,
      db.map (fun v => if v.id == p.id then applyUpsert v p now else v))
  | none =>
    (insertUser p now, db ++ [insertUser p now])

/-- Source: upsertUser in replitAuth.ts lines 69-79 — the payload built from
identity-provider claims: id, email, firstName, lastName, profileImageUrl and
nothing else (in particular no role key). A claim the provider did not send
is the undefined value, which drizzle skips. -/
def authUpsertPayload (c : Claims) : UpsertUser :=
  { id := c.sub
    email := c.email.map some
    firstName := c.first_name.map some
    lastName := c.last_name.map some
    profileImageUrl := c.profile_image_url.map some }

/-- The login / refresh upsert driven by identity-provider claims. -/
def authUpsertUser (db : List User) (c : Claims) (now : Nat) : User × List User :=
  upsertUser db (authUpsertPayload c) now

/-- A JSON error body: status, stable message, and the optional required /
current role fields of the 403 body. -/
structure HttpError where
  status : Nat
  message : String
  required : Option (List String) := none
  current : Option String := none
  deriving Repr, DecidableEq

/-- Outcome of the role gate: a terminating response or pass-through. -/
inductive RoleGateResult where
  | respond (e : HttpError)
  | next (user : AuthUser)
  deriving Repr, DecidableEq

/-- Source: dbUser?.role || 'buyer' in middleware.ts — the role used for the
authorization decision (JavaScript falsiness: a missing record, and an empty
role string, both yield buyer). -/
def roleFromRecord : Option User → String
  | some u => if u.role = "" then "buyer" else u.role
  | none => "buyer"

/-- Source: requireRole (middleware.ts lines 6-33). Runs the authentication
gate first; when it passes, loads the user record for the authenticated
subject id from storage (never from the claims), compares its role against
the allow-list, and responds 403 with the required and current roles on
mismatch. A session whose claims are absent makes req.user.claims.sub throw,
which the catch turns into a 500. -/
def requireRole (allowed : List String) (db : List User) (isAuth : Bool)
    (user : AuthUser) (now : Nat) (refresh : RefreshOutcome) : RoleGateResult :=
  let o := isAuthenticated isAuth user now refresh
  match o.response with
  | GateResponse.terminate s m => RoleGateResult.respond { status := s, message := m }
  | GateResponse.next =>
    match o.user.claims with
    | none => RoleGateResult.respond { status := 500, message := "Authorization check failed" }
    | some c =>
      let userRole := roleFromRecord (getUser db c.sub)
      if allowed.contains userRole then
        RoleGateResult.next o.user
      else
        RoleGateResult.respond
          { status := 403, message := "Insufficient permissions",
            required := some allowed, current := some userRole }

/-- Concrete data for the C4 witness: an expired session user. -/
def userC4 : AuthUser :=
  { claims := some { sub := "u1" }, refresh_token := some ("rt"), expires_at := some 10 }

/-- Concrete data for the C4 witness: the accepted refresh response. -/
def tokensC4 : TokenResponse :=
  { claims := some { sub := "u1", exp := some 60 },
    access_token := some ("at2"), refresh_token := some ("rt2") }

/-- Concrete data for the C2 witness: a stored agent user. -/
def dbC2 : List User := [{ id := "u1", role := "agent", email := some ("old") }]

/-- Concrete data for the C2 witness: fresh provider claims without a role. -/
def claimsC2 : Claims := { sub := "u1", email := some ("new"), first_name := some ("Ann") }

/-- Concrete data for the C3 witness: a stored user with the default buyer
role. -/
def dbC3 : List User := [{ id := "u1" }]

/-- Concrete data for the C3 witness: a fresh authenticated session user. -/
def userC3 : AuthUser := { claims := some { sub := "u1" }, expires_at := some 100 }

/-- What passport.authenticate reports to the callback handler's custom
callback: a strategy error (the err argument), no verified user, or a
verified session user. -/
inductive VerifyOutcome where
  | strategyError
  | noUser
  | verified (user : AuthUser)
  deriving Repr, DecidableEq

/-- Success or failure of one session-store operation (regenerate, logIn,
save), as delivered to its continuation. -/
inductive OpResult where
  | ok
  | fail
  deriving Repr, DecidableEq

/-- Browser-observable end of the callback request: an error forwarded to the
framework error handler via next(err) (a 500-class response carrying no
provider redirect), or a redirect to a location. -/
inductive CallbackResponse where
  | frameworkError
  | redirect (location : String)
  deriving Repr, DecidableEq

/-- The HTTP session as the callback handler manipulates it: the session
identifier and which user, if any, is logged in on it. -/
structure SessionState where
  id : String
  loggedInUser : Option AuthUser
  deriving Repr, DecidableEq

/-- Source: the GET /api/callback handler of replitAuth.ts lines 158-178.
err forwards to next(err); no user redirects to /api/login; otherwise
req.session.regenerate (fresh identifier), then req.logIn, then
req.session.save whose callback takes no error argument — the save result is
ignored and the browser is redirected to / regardless. -/
def callbackReplit (s : SessionState) (outcome : VerifyOutcome) (freshId : String)
    (regen login _save : OpResult) : CallbackResponse × SessionState :=
  match outcome with
  | VerifyOutcome.strategyError => (CallbackResponse.frameworkError, s)
  | VerifyOutcome.noUser => (CallbackResponse.redirect ("/api/login"), s)
  | VerifyOutcome.verified u =>
    match regen with
    | OpResult.fail => (CallbackResponse.frameworkError, s)
    | OpResult.ok =>
      match login with
      | OpResult.fail => (CallbackResponse.frameworkError, { id := freshId, loggedInUser := none })
      | OpResult.ok =>
        (CallbackResponse.redirect ("/"), { id := freshId, loggedInUser := some u })

/-- Source: the GET /api/callback handler of googleAuth.ts lines 114-129.
Identical to the Replit handler except that a save failure is forwarded to
next(saveErr). -/
def callbackGoogle (s : SessionState) (outcome : VerifyOutcome) (freshId : String)
    (regen login save : OpResult) : CallbackResponse × SessionState :=
  match outcome with
  | VerifyOutcome.strategyError => (CallbackResponse.frameworkError, s)
  | VerifyOutcome.noUser => (CallbackResponse.redirect ("/api/login"), s)
  | VerifyOutcome.verified u =>
    match regen with
    | OpResult.fail => (CallbackResponse.frameworkError, s)
    | OpResult.ok =>
      match login with
      | OpResult.fail => (CallbackResponse.frameworkError, { id := freshId, loggedInUser := none })
      | OpResult.ok =>
        match save with
        | OpResult.fail => (CallbackResponse.frameworkError, { id := freshId, loggedInUser := some u })
        | OpResult.ok => (CallbackResponse.redirect ("/"), { id := freshId, loggedInUser := some u })

/-- Claim C6 as stated, following the spec wording, for a given callback
handler: on a fully successful callback the session identifier changes and
the user is logged in; if regeneration fails, the request fails with a
500-class error and the session is untouched; if persistence (session.save)
fails, the request fails with a 500-class error. -/
def regenClaimC6
    (cb : SessionState → VerifyOutcome → String → OpResult → OpResult → OpResult →
      CallbackResponse × SessionState) : Prop :=
  ∀ (s : SessionState) (u : AuthUser) (fid : String) (regen login save : OpResult),
    fid ≠ s.id →
    ((regen = OpResult.ok → login = OpResult.ok → save = OpResult.ok →
        cb s (VerifyOutcome.verified u) fid regen login save
          = (CallbackResponse.redirect ("/"), { id := fid, loggedInUser := some u }))
      ∧ (regen = OpResult.fail →
          cb s (VerifyOutcome.verified u) fid regen login save
            = (CallbackResponse.frameworkError, s))
      ∧ (save = OpResult.fail → regen = OpResult.ok → login = OpResult.ok →
          (cb s (VerifyOutcome.verified u) fid regen login save).1
            = CallbackResponse.frameworkError))

/-- Claim C7 as stated, following the spec wording, for a given callback
handler: a strategy error and a missing verified user both redirect the
browser to /api/login, and success redirects to /. -/
def failureRedirectClaimC7
    (cb : SessionState → VerifyOutcome → String → OpResult → OpResult → OpResult →
      CallbackResponse × SessionState) : Prop :=
  ∀ (s : SessionState) (fid : String) (regen login save : OpResult),
    ((cb s VerifyOutcome.strategyError fid regen login save).1
        = CallbackResponse.redirect ("/api/login"))
    ∧ ((cb s VerifyOutcome.noUser fid regen login save).1
        = CallbackResponse.redirect ("/api/login"))
    ∧ (∀ u, (cb s (VerifyOutcome.verified u) fid OpResult.ok OpResult.ok OpResult.ok).1
        = CallbackResponse.redirect ("/"))

/-- A JSON value in a request-body object, classified the way the PATCH
handler's typeof test does: a string, null, or anything else. -/
inductive JVal where
  | str (s : String)
  | jnull
  | other
  deriving Repr, DecidableEq

/-- Source: the allow-list of self-service fields in the PATCH /api/auth/user
handler. -/
def allowedFields : List String := [("phone"), ("bio")]

/-- Source: the filter plus reduce of the PATCH handler — keep a body field
exactly when its key is in the allow-list and its value is a string or null.
A request body is modelled as the key/value fields of its JSON object. -/
def filterUpdates (body : List (String × JVal)) : List (String × JVal) :=
  body.filter (fun kv =>
    allowedFields.contains kv.1 &&
      (match kv.2 with
        | JVal.str _ => true
        | JVal.jnull => true
        | JVal.other => false))

/-- The column write a kept field contributes: a string writes itself, null
writes SQL NULL; absence of the key leaves the column alone. -/
def lookupField (fs : List (String × JVal)) (k : String) : Option (Option String) :=
  (fs.find? (fun kv => kv.1 == k)).map (fun kv =>
    match kv.2 with
    | JVal.str v => some v
    | _ => none)

/-- The upsert payload the PATCH handler builds: the authenticated user id
spread with the filtered updates, which can only ever mention phone and
bio. -/
def patchPayload (userId : String) (body : List (String × JVal)) : UpsertUser :=
  { id := userId
    phone := lookupField (filterUpdates body) ("phone")
    bio := lookupField (filterUpdates body) ("bio") }

/-- Response of the PATCH handler: 400 with a message, or 200 with the
updated user row. -/
inductive PatchResult where
  | badRequest (message : String)
  | ok (user : User)
  deriving Repr, DecidableEq

/-- Source: the PATCH /api/auth/user handler (routes, lines 32-68), modelled
after the authentication gate has passed and for an object request body:
filter the body against the allow-list, respond 400 when nothing valid
remains, otherwise upsert id plus the filtered fields and return the updated
row. -/
def patchAuthUser (db : List User) (userId : String) (body : List (String × JVal))
    (now : Nat) : PatchResult × List User :=
  if (filterUpdates body).isEmpty then
    (PatchResult.badRequest ("No valid fields to update"), db)
  else
    (PatchResult.ok (upsertUser db (patchPayload userId body) now).1,
      (upsertUser db (patchPayload userId body) now).2)

/-- Concrete data for the C8 witness: a stored agent with a phone number. -/
def dbC8 : List User := [{ id := "u1", role := "agent", phone := some ("111") }]

/-- Concrete data for the C8 witness: a body trying to set role and bio. -/
def bodyC8 : List (String × JVal) := [(("role"), JVal.str ("admin")), (("bio"), JVal.str ("hi"))]

/-- One registered passport strategy: its name, requested scope string, and
callback URL. -/
structure StrategyConfig where
  name : String
  scope : String
  callbackURL : String
  deriving Repr, DecidableEq

/-- Source: the scope string of every Strategy registered by setupAuth in
replitAuth.ts (production domains and the development localhost pair). -/
def replitScope : String := "openid email profile offline_access"

/-- Source: params.scope of the google strategy registration in
googleAuth.ts. -/
def googleScope : String := "openid email profile"

/-- Splits a character list into the space-separated words accumulated so
far. -/
def splitWords (cs : List Char) (acc : String) : List String :=
  match cs with
  | [] => [acc]
  | c :: rest => if c = ' ' then acc :: splitWords rest ("") else splitWords rest (acc.push c)

/-- The set of scopes requested, as the space-separated scope string's
parts. -/
def scopeSet (s : String) : List String := splitWords s.toList ("")

/-- Source: setupAuth strategy registration in replitAuth.ts lines 99-128 —
one strategy per configured domain, plus localhost and 127.0.0.1 strategies
outside production. -/
def replitStrategies (domains : List String) (production : Bool) : List StrategyConfig :=
  domains.map (fun d =>
    { name := ("replitauth:") ++ d, scope := replitScope,
      callbackURL := ("https://") ++ d ++ ("/api/callback") })
  ++ (if production then [] else
      [{ name := ("replitauth:localhost"), scope := replitScope,
         callbackURL := ("http://localhost:5000/api/callback") },
       { name := ("replitauth:127.0.0.1"), scope := replitScope,
         callbackURL := ("http://127.0.0.1:5000/api/callback") }])

/-- Source: setupAuth strategy registration in googleAuth.ts lines 94-107 —
a single google strategy whose params carry only the scope string and the
configured redirect URI (no offline access request of any form). -/
def googleStrategies (callbackURL : String) : List StrategyConfig :=
  [{ name := ("google"), scope := googleScope, callbackURL := callbackURL }]

/-- A row of the favorites table: id, user, property, creation time; the
table carries a unique constraint on (userId, propertyId). -/
structure Favorite where
  id : String
  userId : String
  propertyId : String
  createdAt : Nat := 0
  deriving Repr, DecidableEq

/-- An insertFavoriteSchema payload: the favorites row minus id and
createdAt. -/
structure InsertFavorite where
  userId : String
  propertyId : String
  deriving Repr, DecidableEq

/-- Source: DatabaseStorage.getFavorite — first row of the select filtered on
userId and propertyId. -/
def getFavorite (db : List Favorite) (userId propertyId : String) : Option Favorite :=
  db.find? (fun f => f.userId == userId && f.propertyId == propertyId)

/-- Count of rows for one (userId, propertyId) pair. -/
def favCount (db : List Favorite) (u p : String) : Nat :=
  (db.filter (fun f => f.userId == u && f.propertyId == p)).length

/-- The favorites table invariant enforced by the uniqueUserProperty
constraint: at most one row per (userId, propertyId) pair. -/
def pairUniq (db : List Favorite) : Prop :=
  ∀ (u p : String), favCount db u p ≤ 1

/-- Source: DatabaseStorage.addFavorite (storage.ts lines 210-228) —
insert with onConflictDoNothing and returning; when no row comes back
because the (userId, propertyId) pair already exists, fetch and return the
existing favorite; the freshly generated uuid primary key never conflicts. -/
def addFavorite (db : List Favorite) (ins : InsertFavorite) (freshId : String)
    (now : Nat) : Except String (Favorite × List Favorite) :=
  match getFavorite db ins.userId ins.propertyId with
  | some _ =>
    match getFavorite db ins.userId ins.propertyId with
    | some existing => Except.ok (existing, db)
    | none => Except.error ("Failed to add favorite")
  | none =>
    Except.ok
      ({ id := freshId, userId := ins.userId, propertyId := ins.propertyId, createdAt := now },
        db ++ [{ id := freshId, userId := ins.userId, propertyId := ins.propertyId,
                 createdAt := now }])

/-- Concrete data for the C10 witness: an existing favorite row. -/
def favC10 : Favorite := { id := "f1", userId := "u1", propertyId := "p1", createdAt := 3 }

/- ===================== THEOREMS ===================== -/

/-- Helper: updating the one conflicting row rewrites exactly the row the
lookup found, so the lookup afterwards returns its updated version. -/
theorem getUser_map_upsert (db : List User) (p : UpsertUser) (now : Nat) :
    ∀ (u : User), getUser db p.id = some u →
      getUser (db.map (fun v => if v.id == p.id then applyUpsert v p now else v)) p.id
        = some (applyUpsert u p now) := by
  induction db with
  | nil =>
    intro u h
    simp [getUser] at h
  | cons v t ih =>
    intro u h
    unfold getUser at h ⊢
    rw [List.map_cons]
    by_cases hv : (v.id == p.id) = true
    · rw [List.find?_cons_of_pos (p := fun w : User => w.id == p.id) _ hv] at h
      have hu : v = u := Option.some.inj h
      subst hu
      rw [if_pos hv]
      exact List.find?_cons_of_pos (p := fun w : User => w.id == p.id) _ hv
    · rw [List.find?_cons_of_neg (p := fun w : User => w.id == p.id) _ hv] at h
      rw [if_neg hv]
      rw [List.find?_cons_of_neg (p := fun w : User => w.id == p.id) _ hv]
      exact ih u h

/-- C1 (counterexample): at a session whose expires_at is present but 0, with
a non-empty refresh token the provider would accept, none of the four listed
401 conditions holds, yet the gate responds 401 (the source tests the falsy
expression !user.expires_at, which also fires on 0), so the claim as stated
is false. -/
theorem authGate_claim_cex :
    ¬ gateSpecC1 true cexUserC1 1000 (RefreshOutcome.accept {}) := by
  unfold gateSpecC1
  decide

/-- C1 (amended): the gate responds 401 with message Unauthorized exactly when
the session is unauthenticated, or expires_at is missing or zero, or
expires_at is in the past with no non-empty refresh token, or a refresh was
attempted and failed; in every other case it calls through to the next stage,
and whenever a non-zero expires_at is not in the past the request passes
through with the session unmodified and no refresh call. -/
theorem authGate_401_characterization :
    ∀ (isAuth : Bool) (user : AuthUser) (now : Nat) (refresh : RefreshOutcome),
      gateAmendedC1 isAuth user now refresh := by
  intro isAuth user now refresh
  rcases user with ⟨cl, atk, rtk, ea⟩
  cases isAuth with
  | false =>
    simp [gateAmendedC1, isAuthenticated]
  | true =>
    cases ea with
    | none =>
      simp [gateAmendedC1, isAuthenticated, truthyNum]
    | some e =>
      by_cases he : e = 0
      · subst he
        simp [gateAmendedC1, isAuthenticated, truthyNum]
      · by_cases hle : now ≤ e
        · simp [gateAmendedC1, isAuthenticated, truthyNum, truthyStr, expiresInPast,
            he, hle, Nat.not_lt.mpr hle]
        · have hlt : e < now := Nat.lt_of_not_le hle
          cases rtk with
          | none =>
            cases refresh with
            | accept tokens =>
              simp [gateAmendedC1, isAuthenticated, truthyNum, truthyStr, expiresInPast,
                he, hle, hlt]
            | reject =>
              simp [gateAmendedC1, isAuthenticated, truthyNum, truthyStr, expiresInPast,
                he, hle, hlt]
          | some s =>
            by_cases hs : s = ""
            · subst hs
              cases refresh with
              | accept tokens =>
                simp [gateAmendedC1, isAuthenticated, truthyNum, truthyStr, expiresInPast,
                  he, hle, hlt]
              | reject =>
                simp [gateAmendedC1, isAuthenticated, truthyNum, truthyStr, expiresInPast,
                  he, hle, hlt]
            · cases refresh with
              | accept tokens =>
                simp [gateAmendedC1, isAuthenticated, truthyNum, truthyStr, expiresInPast,
                  he, hle, hlt, hs]
              | reject =>
                simp [gateAmendedC1, isAuthenticated, truthyNum, truthyStr, expiresInPast,
                  he, hle, hlt, hs]

/-- C1 (witness): the amended characterization evaluated at a concrete
expired session with a rejecting provider. -/
theorem authGate_401_characterization_witness :
    gateAmendedC1 true { expires_at := some 10, refresh_token := some ("rt") } 30
      RefreshOutcome.reject :=
  authGate_401_characterization true
    { expires_at := some 10, refresh_token := some ("rt") } 30 RefreshOutcome.reject

/-- C2: a login or refresh upsert driven by identity-provider claims (whose
payload carries no role key) leaves the stored role unchanged, overwrites
email, firstName, lastName and profileImageUrl with every fresh claim value
the provider supplied, and the updated row is what the table then stores for
that subject id — so a remote identity provider can never change a user's
role. -/
theorem claimsUpsert_preserves_role :
    ∀ (db : List User) (c : Claims) (now : Nat) (u : User),
      getUser db c.sub = some u →
      ((authUpsertUser db c now).1.role = u.role
        ∧ getUser (authUpsertUser db c now).2 c.sub = some (authUpsertUser db c now).1
        ∧ (∀ e, c.email = some e → (authUpsertUser db c now).1.email = some e)
        ∧ (∀ s, c.first_name = some s → (authUpsertUser db c now).1.firstName = some s)
        ∧ (∀ s, c.last_name = some s → (authUpsertUser db c now).1.lastName = some s)
        ∧ (∀ s, c.profile_image_url = some s →
            (authUpsertUser db c now).1.profileImageUrl = some s)) := by
  intro db c now u h
  have h' : getUser db (authUpsertPayload c).id = some u := h
  unfold authUpsertUser upsertUser
  rw [h']
  refine ⟨?_, ?_, ?_, ?_, ?_, ?_⟩
  · simp [applyUpsert, authUpsertPayload]
  · exact getUser_map_upsert db (authUpsertPayload c) now u h'
  · intro e he
    simp [applyUpsert, authUpsertPayload, he]
  · intro s hs
    simp [applyUpsert, authUpsertPayload, hs]
  · intro s hs
    simp [applyUpsert, authUpsertPayload, hs]
  · intro s hs
    simp [applyUpsert, authUpsertPayload, hs]

/-- C2 (witness): upserting fresh claims over a stored agent keeps the agent
role while refreshing the email. -/
theorem claimsUpsert_preserves_role_witness :
    (authUpsertUser dbC2 claimsC2 7).1.role = "agent"
      ∧ (authUpsertUser dbC2 claimsC2 7).1.email = some ("new") := by
  have h := claimsUpsert_preserves_role dbC2 claimsC2 7
    { id := "u1", role := "agent", email := some ("old") } (by decide)
  exact ⟨h.1, h.2.2.1 ("new") rfl⟩

/-- C3: when the authentication gate passes, the role gate decides from the
role stored in the user record it loads from storage for the authenticated
subject id: pass-through exactly when that role is in the allow-list, and
otherwise a 403 response reporting both the required role set and the
caller's actual role; a missing record is treated as the least-privileged
buyer. In particular a stored buyer against requireRole of agent gets 403 and
a stored agent passes. -/
theorem requireRole_loads_role_from_storage :
    ∀ (allowed : List String) (db : List User) (isAuth : Bool) (user : AuthUser)
      (now : Nat) (refresh : RefreshOutcome) (c : Claims),
      (isAuthenticated isAuth user now refresh).response = GateResponse.next →
      (isAuthenticated isAuth user now refresh).user.claims = some c →
      (∀ v, getUser db c.sub = some v → v.role ≠ "") →
      ((requireRole allowed db isAuth user now refresh =
          if allowed.contains (roleFromRecord (getUser db c.sub)) then
            RoleGateResult.next (isAuthenticated isAuth user now refresh).user
          else
            RoleGateResult.respond
              { status := 403, message := "Insufficient permissions",
                required := some allowed, current := some (roleFromRecord (getUser db c.sub)) })
        ∧ (∀ v, getUser db c.sub = some v → roleFromRecord (getUser db c.sub) = v.role)
        ∧ (getUser db c.sub = none → roleFromRecord (getUser db c.sub) = "buyer")) := by
  intro allowed db isAuth user now refresh c hnext hclaims hrole
  refine ⟨?_, ?_, ?_⟩
  · unfold requireRole
    simp only [hnext, hclaims]
  · intro v hv
    unfold roleFromRecord
    rw [hv]
    simp [hrole v hv]
  · intro hnone
    simp [roleFromRecord, hnone]

/-- C3 (witness): a stored buyer requesting a requireRole agent route gets the
403 body reporting the required set and the actual buyer role. -/
theorem requireRole_loads_role_from_storage_witness :
    requireRole [("agent")] dbC3 true userC3 50 RefreshOutcome.reject
      = RoleGateResult.respond
          { status := 403, message := "Insufficient permissions",
            required := some [("agent")], current := some ("buyer") } := by
  have h := requireRole_loads_role_from_storage [("agent")] dbC3 true userC3 50
    RefreshOutcome.reject { sub := "u1" } (by decide) (by decide)
    (fun v hv => by
      have h0 := hv
      rw [show getUser dbC3 ({ sub := "u1" } : Claims).sub
            = some { id := "u1" } from rfl] at h0
      cases Option.some.inj h0
      decide)
  exact h.1.trans (by decide)

/-- C4: for an expired session (non-zero expiry in the past) holding a
non-empty refresh token the provider accepts with a fresh token, the gate
makes exactly one refresh call, overwrites the stored tuple's claims, access
token, refresh token and expiry in place via updateUserSession, passes the
request through, the new expiry strictly exceeds the old, and the session
identifier is untouched. -/
theorem gate_refresh_success :
    ∀ (user : AuthUser) (now : Nat) (tr : TokenResponse) (e eOld : Nat),
      user.expires_at = some eOld → eOld ≠ 0 → eOld < now →
      truthyStr user.refresh_token = true →
      tr.claims.bind (fun cl => cl.exp) = some e → now ≤ e →
      ((isAuthenticated true user now (RefreshOutcome.accept tr) =
          { response := GateResponse.next,
            user := updateUserSession user tr, refreshCalls := 1 })
        ∧ (updateUserSession user tr).expires_at = some e
        ∧ eOld < e
        ∧ ∀ (sid : String),
            (isAuthenticatedSession true { id := sid, user := user } now
              (RefreshOutcome.accept tr)).2.1.id = sid) := by
  intro user now tr e eOld hexp hne hlt htok hcl hnow
  have h1 : truthyNum user.expires_at = true := by
    rw [hexp]
    simp [truthyNum, hne]
  have h2 : ¬ (now ≤ user.expires_at.getD 0) := by
    rw [hexp]
    simpa using Nat.not_le.mpr hlt
  refine ⟨?_, ?_, ?_, ?_⟩
  · simp [isAuthenticated, h1, h2, htok]
  · simp [updateUserSession, hcl]
  · exact lt_of_lt_of_le hlt hnow
  · intro sid
    rfl

/-- C4 (witness): a session expired at 10, refreshed at time 20 with a token
expiring at 60, passes through with one refresh call and the session tuple
rewritten. -/
theorem gate_refresh_success_witness :
    (isAuthenticated true userC4 20 (RefreshOutcome.accept tokensC4) =
        { response := GateResponse.next,
          user := updateUserSession userC4 tokensC4, refreshCalls := 1 })
      ∧ (10 : Nat) < 60 := by
  have h := gate_refresh_success userC4 20 tokensC4 60 10 rfl (by decide) (by decide)
    (by decide) rfl (by decide)
  exact ⟨h.1, h.2.2.1⟩

/-- C5: for an expired session holding a non-empty refresh token the provider
rejects, the gate responds 401 Unauthorized and leaves the session user tuple
entirely unchanged, so every later request with the same session and a still
rejecting provider again yields 401 with the tuple still unchanged. -/
theorem gate_refresh_failure :
    ∀ (user : AuthUser) (now eOld : Nat),
      user.expires_at = some eOld → eOld ≠ 0 → eOld < now →
      truthyStr user.refresh_token = true →
      ((isAuthenticated true user now RefreshOutcome.reject =
          { response := GateResponse.terminate 401 "Unauthorized",
            user := user, refreshCalls := 1 })
        ∧ ∀ (now₂ : Nat), now ≤ now₂ →
            isAuthenticated true user now₂ RefreshOutcome.reject =
              { response := GateResponse.terminate 401 "Unauthorized",
                user := user, refreshCalls := 1 }) := by
  intro user now eOld hexp hne hlt htok
  have key : ∀ (m : Nat), eOld < m →
      isAuthenticated true user m RefreshOutcome.reject =
        { response := GateResponse.terminate 401 "Unauthorized",
          user := user, refreshCalls := 1 } := by
    intro m hm
    have h1 : truthyNum user.expires_at = true := by
      rw [hexp]
      simp [truthyNum, hne]
    have h2 : ¬ (m ≤ user.expires_at.getD 0) := by
      rw [hexp]
      simpa using Nat.not_le.mpr hm
    simp [isAuthenticated, h1, h2, htok]
  exact ⟨key now hlt, fun now₂ h₂ => key now₂ (lt_of_lt_of_le hlt h₂)⟩

/-- C5 (witness): the expired session rejected at time 20 yields 401 with the
tuple unchanged, and again at time 25. -/
theorem gate_refresh_failure_witness :
    (isAuthenticated true userC4 20 RefreshOutcome.reject =
        { response := GateResponse.terminate 401 "Unauthorized",
          user := userC4, refreshCalls := 1 })
      ∧ isAuthenticated true userC4 25 RefreshOutcome.reject =
        { response := GateResponse.terminate 401 "Unauthorized",
          user := userC4, refreshCalls := 1 } := by
  have h := gate_refresh_failure userC4 20 10 rfl (by decide) (by decide) (by decide)
  exact ⟨h.1, h.2 25 (by decide)⟩

/-- C6 (counterexample): in the Replit callback handler, when session
persistence (session.save) fails after a successful regeneration and login,
the handler still redirects the browser to / with the user logged in — the
save callback takes no error argument — so the claim that a persistence
failure prevents login and fails the request with a 500-class error is false
at that concrete input. -/
theorem sessionRegen_claim_cex : ¬ regenClaimC6 callbackReplit := by
  intro h
  have h3 := (h { id := "old", loggedInUser := none } {} ("new")
    OpResult.ok OpResult.ok OpResult.fail (by decide)).2.2 rfl rfl rfl
  exact absurd h3 (by decide)

/-- C6 (amended): on a fully successful callback both handlers regenerate the
session identifier before marking the user logged in (the post-callback
identifier is the fresh one, different from the pre-callback one); if
regeneration fails, no login occurs and both handlers fail with a 500-class
error; if logIn fails, both fail with a 500-class error with no user logged
in; if persistence fails, the Google handler fails with a 500-class error
while the Replit handler ignores the failure and redirects to / with the
user logged in. -/
theorem callback_regeneration_characterization :
    ∀ (s : SessionState) (u : AuthUser) (fid : String),
      fid ≠ s.id →
      ((callbackReplit s (VerifyOutcome.verified u) fid OpResult.ok OpResult.ok OpResult.ok
          = (CallbackResponse.redirect ("/"), { id := fid, loggedInUser := some u }))
        ∧ (callbackGoogle s (VerifyOutcome.verified u) fid OpResult.ok OpResult.ok OpResult.ok
          = (CallbackResponse.redirect ("/"), { id := fid, loggedInUser := some u }))
        ∧ (∀ login save, callbackReplit s (VerifyOutcome.verified u) fid OpResult.fail login save
            = (CallbackResponse.frameworkError, s))
        ∧ (∀ login save, callbackGoogle s (VerifyOutcome.verified u) fid OpResult.fail login save
            = (CallbackResponse.frameworkError, s))
        ∧ (∀ save, callbackReplit s (VerifyOutcome.verified u) fid OpResult.ok OpResult.fail save
            = (CallbackResponse.frameworkError, { id := fid, loggedInUser := none }))
        ∧ (∀ save, callbackGoogle s (VerifyOutcome.verified u) fid OpResult.ok OpResult.fail save
            = (CallbackResponse.frameworkError, { id := fid, loggedInUser := none }))
        ∧ (callbackGoogle s (VerifyOutcome.verified u) fid OpResult.ok OpResult.ok OpResult.fail
            = (CallbackResponse.frameworkError, { id := fid, loggedInUser := some u }))
        ∧ (callbackReplit s (VerifyOutcome.verified u) fid OpResult.ok OpResult.ok OpResult.fail
            = (CallbackResponse.redirect ("/"), { id := fid, loggedInUser := some u }))
        ∧ ({ id := fid, loggedInUser := some u } : SessionState).id ≠ s.id) := by
  intro s u fid hne
  exact ⟨rfl, rfl, fun _ _ => rfl, fun _ _ => rfl, fun _ => rfl, fun _ => rfl, rfl, rfl, hne⟩

/-- C6 (witness): a fully successful Replit callback starting from session
old with fresh identifier new ends logged in on session new. -/
theorem callback_regeneration_characterization_witness :
    callbackReplit { id := "old", loggedInUser := none } (VerifyOutcome.verified {}) ("new")
        OpResult.ok OpResult.ok OpResult.ok
      = (CallbackResponse.redirect ("/"),
          { id := "new", loggedInUser := some ({} : AuthUser) }) :=
  (callback_regeneration_characterization { id := "old", loggedInUser := none } {} ("new")
    (by decide)).1

/-- C7 (counterexample): when the strategy reports an error, the callback
handler forwards it to next(err) — a 500-class framework error response —
instead of redirecting the browser to /api/login, so the claim that every
provider error redirects to the login entry point is false. -/
theorem callbackRedirect_claim_cex : ¬ failureRedirectClaimC7 callbackReplit := by
  intro h
  have h1 := (h { id := "s", loggedInUser := none } ("n")
    OpResult.ok OpResult.ok OpResult.ok).1
  exact absurd h1 (by decide)

/-- C7 (amended): when the provider round trip yields no verified user, both
callback handlers redirect the browser to /api/login with the session
untouched; when the strategy reports an error, both forward it to the
framework error handler (a 500-class response, carrying no provider redirect)
rather than redirecting; on full success both redirect to /. -/
theorem callback_failure_redirect :
    ∀ (s : SessionState) (fid : String) (regen login save : OpResult),
      ((callbackReplit s VerifyOutcome.noUser fid regen login save
          = (CallbackResponse.redirect ("/api/login"), s))
        ∧ (callbackGoogle s VerifyOutcome.noUser fid regen login save
          = (CallbackResponse.redirect ("/api/login"), s))
        ∧ (callbackReplit s VerifyOutcome.strategyError fid regen login save
          = (CallbackResponse.frameworkError, s))
        ∧ (callbackGoogle s VerifyOutcome.strategyError fid regen login save
          = (CallbackResponse.frameworkError, s))
        ∧ (∀ u, (callbackReplit s (VerifyOutcome.verified u) fid OpResult.ok OpResult.ok
            OpResult.ok).1 = CallbackResponse.redirect ("/"))
        ∧ (∀ u, (callbackGoogle s (VerifyOutcome.verified u) fid OpResult.ok OpResult.ok
            OpResult.ok).1 = CallbackResponse.redirect ("/"))) := by
  intro s fid regen login save
  exact ⟨rfl, rfl, rfl, rfl, fun _ => rfl, fun _ => rfl⟩

/-- C8: for every object body of an authenticated PATCH /api/auth/user
request against an existing user record, the response is the 400 with message
No valid fields to update exactly when no allow-listed string-or-null field
remains after filtering, and then the table is unchanged — never a silent 200
no-op; otherwise the response is 200 with the row updated through a payload
that can only mention phone and bio, so role, email and every other column is
unchanged (any other body field, in particular role, is silently dropped
rather than erroring). -/
theorem patchUser_allowlist :
    ∀ (db : List User) (uid : String) (body : List (String × JVal)) (now : Nat) (u : User),
      getUser db uid = some u →
      (((patchAuthUser db uid body now).1 = PatchResult.badRequest ("No valid fields to update")
          ↔ filterUpdates body = [])
        ∧ (filterUpdates body = [] → patchAuthUser db uid body now
            = (PatchResult.badRequest ("No valid fields to update"), db))
        ∧ (filterUpdates body ≠ [] →
            ((patchAuthUser db uid body now).1
                = PatchResult.ok (applyUpsert u (patchPayload uid body) now)
              ∧ (applyUpsert u (patchPayload uid body) now).role = u.role
              ∧ (applyUpsert u (patchPayload uid body) now).email = u.email
              ∧ (applyUpsert u (patchPayload uid body) now).firstName = u.firstName
              ∧ (applyUpsert u (patchPayload uid body) now).lastName = u.lastName
              ∧ (applyUpsert u (patchPayload uid body) now).profileImageUrl = u.profileImageUrl
              ∧ getUser (patchAuthUser db uid body now).2 uid
                  = some (applyUpsert u (patchPayload uid body) now)))) := by
  intro db uid body now u h
  have h' : getUser db (patchPayload uid body).id = some u := h
  cases hlist : filterUpdates body with
  | nil =>
    refine ⟨?_, ?_, ?_⟩
    · simp [patchAuthUser, hlist]
    · intro _
      simp [patchAuthUser, hlist]
    · intro hne
      exact absurd rfl hne
  | cons kv rest =>
    have hfalse : (filterUpdates body).isEmpty = false := by
      simp [hlist]
    refine ⟨?_, ?_, ?_⟩
    · simp [patchAuthUser, hfalse, hlist]
    · intro hcontra
      exact absurd hcontra (by simp)
    · intro _
      unfold patchAuthUser upsertUser
      rw [hfalse]
      rw [h']
      refine ⟨rfl, ?_, ?_, ?_, ?_, ?_, ?_⟩
      · simp [applyUpsert, patchPayload]
      · simp [applyUpsert, patchPayload]
      · simp [applyUpsert, patchPayload]
      · simp [applyUpsert, patchPayload]
      · simp [applyUpsert, patchPayload]
      · simpa using getUser_map_upsert db (patchPayload uid body) now u h'

/-- C8 (witness): the body trying to set role admin and bio hi against a
stored agent applies only bio — the stored role stays agent. -/
theorem patchUser_allowlist_witness :
    ((patchAuthUser dbC8 ("u1") bodyC8 9).1
        = PatchResult.ok (applyUpsert { id := "u1", role := "agent", phone := some ("111") }
            (patchPayload ("u1") bodyC8) 9))
      ∧ (applyUpsert { id := "u1", role := "agent", phone := some ("111") }
          (patchPayload ("u1") bodyC8) 9).role = "agent" := by
  have h := patchUser_allowlist dbC8 ("u1") bodyC8 9
    { id := "u1", role := "agent", phone := some ("111") } (by decide)
  have h3 := h.2.2 (by decide)
  exact ⟨h3.1, h3.2.1⟩

/-- C9: every registered Replit strategy requests openid, email, profile and
offline_access; the google strategy requests openid, email and profile but no
offline-access scope, even though the google deployment relies on silent
token refresh (its authentication gate performs a refresh-token call on
expired sessions) — the code bug the claim exposes. -/
theorem googleScope_missing_offline :
    ∀ (domains : List String) (production : Bool) (callbackURL : String),
      ((∀ st ∈ replitStrategies domains production,
          ("openid") ∈ scopeSet st.scope ∧ ("email") ∈ scopeSet st.scope
            ∧ ("profile") ∈ scopeSet st.scope ∧ ("offline_access") ∈ scopeSet st.scope)
        ∧ (∀ st ∈ googleStrategies callbackURL,
            ("openid") ∈ scopeSet st.scope ∧ ("email") ∈ scopeSet st.scope
              ∧ ("profile") ∈ scopeSet st.scope
              ∧ ("offline_access") ∉ scopeSet st.scope)
        ∧ (∃ (user : AuthUser) (now : Nat) (tr : TokenResponse),
            (isAuthenticated true user now (RefreshOutcome.accept tr)).refreshCalls = 1)) := by
  intro domains production callbackURL
  refine ⟨?_, ?_, ?_⟩
  · intro st hst
    have hs : st.scope = replitScope := by
      rcases List.mem_append.mp hst with hm | hm
      · rcases List.mem_map.mp hm with ⟨d, _, rfl⟩
        rfl
      · cases production with
        | true => simp at hm
        | false =>
          simp at hm
          rcases hm with rfl | rfl <;> rfl
    rw [hs]
    decide
  · intro st hst
    have hs : st.scope = googleScope := by
      simp [googleStrategies] at hst
      rw [hst]
    rw [hs]
    decide
  · exact ⟨{ refresh_token := some ("rt"), expires_at := some 10 }, 20, {}, by decide⟩

/-- C10: addFavorite is idempotent — when a favorite for the (user, property)
pair already exists, it returns the existing row and leaves the favorites
table unchanged — and it preserves the at-most-one-row-per-pair invariant of
the uniqueUserProperty constraint on every successful call. -/
theorem addFavorite_idempotent :
    (∀ (db : List Favorite) (ins : InsertFavorite) (fid : String) (now : Nat) (ex : Favorite),
        getFavorite db ins.userId ins.propertyId = some ex →
        addFavorite db ins fid now = Except.ok (ex, db))
      ∧ (∀ (db : List Favorite) (ins : InsertFavorite) (fid : String) (now : Nat)
          (f : Favorite) (db₂ : List Favorite),
          pairUniq db → addFavorite db ins fid now = Except.ok (f, db₂) → pairUniq db₂) := by
  constructor
  · intro db ins fid now ex h
    unfold addFavorite
    rw [h]
  · intro db ins fid now f db₂ huniq hadd
    unfold addFavorite at hadd
    cases hfind : getFavorite db ins.userId ins.propertyId with
    | some ex =>
      rw [hfind] at hadd
      cases hadd
      exact huniq
    | none =>
      rw [hfind] at hadd
      cases hadd
      intro u p
      unfold favCount
      rw [List.filter_append, List.length_append]
      by_cases hu : ins.userId = u
      · by_cases hp : ins.propertyId = p
        · subst hu
          subst hp
          have hzero :
              (db.filter (fun g => g.userId == ins.userId && g.propertyId == ins.propertyId)).length
                = 0 := by
            rw [List.length_eq_zero, List.filter_eq_nil_iff]
            intro a ha
            simpa using List.find?_eq_none.mp hfind a ha
          rw [hzero]
          simp
        · have hb : (ins.propertyId == p) = false := beq_eq_false_iff_ne.mpr hp
          have h1 := huniq u p
          unfold favCount at h1
          simpa [hb] using h1
      · have hb : (ins.userId == u) = false := beq_eq_false_iff_ne.mpr hu
        have h1 := huniq u p
        unfold favCount at h1
        simpa [hb] using h1

/-- C10 (witness): adding the already-present (u1, p1) favorite returns the
existing row and the table is unchanged. -/
theorem addFavorite_idempotent_witness :
    addFavorite [favC10] { userId := "u1", propertyId := "p1" } ("f2") 9
      = Except.ok (favC10, [favC10]) :=
  addFavorite_idempotent.1 [favC10] { userId := "u1", propertyId := "p1" } ("f2") 9 favC10
    (by decide)

end HavenHomes
